import Mathlib

/-!
Verification of the data model and the fetch/transform logic of the City-AQI
dashboard, a shallow embedding of src/services/aqi.ts.

Modelling conventions:
* JavaScript numbers are modelled as rationals; decimal literals of the source
  (1.2, 0.85, 2.5, ...) are taken as the exact rationals they denote.
* Each call to Math.random() reads one value from an explicit draw supply
  rng : Nat → ℚ.  Every syntactic call site of Math.random() in the source is
  assigned its own fixed index into the supply, so distinct call sites always
  receive independent draws; a draw supply is valid when all its values lie in
  the interval of Math.random(), namely 0 ≤ r < 1.
* The clock (new Date()) is an explicit JsDate argument carrying the ISO string
  produced by toISOString() and the hour of day produced by getHours().
* The network is an explicit HttpOutcome argument: either the fetch promise
  rejected, or it resolved with an ok-flag and a parsed JSON body.  Thrown
  values are modelled by Except with a JsError error type.
-/

/-- The trend union type of the source:
trend is improving, stable or worsening. -/
inductive Trend where
  | improving
  | stable
  | worsening
  deriving DecidableEq

/-- interface AQIPrediction of the source. -/
structure AQIPrediction where
  predictedAQI : ℚ
  confidence : ℚ
  trend : Trend
  deriving DecidableEq

/-- The pollutant instant-readings record (pm25, no2, so2, o3), each optional. -/
structure Pollutants where
  pm25 : Option ℚ
  no2 : Option ℚ
  so2 : Option ℚ
  o3 : Option ℚ
  deriving DecidableEq

/-- The aqi sub-record of the current snapshot. -/
structure CurrentAqi where
  value : ℚ
  category : String
  pollutants : Pollutants
  prediction : Option AQIPrediction
  deriving DecidableEq

/-- The current snapshot of interface EnvironmentalData. -/
structure Current where
  timestamp : String
  temperature : ℚ
  humidity : ℚ
  co2 : ℚ
  aqi : CurrentAqi
  deriving DecidableEq

/-- The aqi sub-record of an hourly sample (pollutants is optional here). -/
structure HourlyAqi where
  value : ℚ
  pollutants : Option Pollutants
  deriving DecidableEq

/-- One element of the hourly array of interface EnvironmentalData. -/
structure HourlySample where
  hour : String
  temperature : ℚ
  humidity : ℚ
  co2 : ℚ
  aqi : HourlyAqi
  deriving DecidableEq

/-- One element of timeRangeAverages.daily. -/
structure HourAvg where
  hour : String
  averageAqi : ℚ
  deriving DecidableEq

/-- One element of timeRangeAverages.weekly. -/
structure WeekAvg where
  week : String
  averageAqi : ℚ
  deriving DecidableEq

/-- One element of timeRangeAverages.monthly. -/
structure MonthAvg where
  month : String
  averageAqi : ℚ
  deriving DecidableEq

/-- One element of timeRangeAverages.yearly. -/
structure YearAvg where
  year : String
  averageAqi : ℚ
  deriving DecidableEq

/-- The timeRangeAverages record of interface EnvironmentalData. -/
structure TimeRangeAverages where
  daily : List HourAvg
  weekly : List WeekAvg
  monthly : List MonthAvg
  yearly : List YearAvg
  deriving DecidableEq

/-- One element of locationAverages. -/
structure LocationAverage where
  location : String
  averageAqi : ℚ
  deriving DecidableEq

/-- interface EnvironmentalData of the source: the view model. -/
structure EnvironmentalData where
  current : Current
  hourly : List HourlySample
  timeRangeAverages : TimeRangeAverages
  locationAverages : List LocationAverage
  deriving DecidableEq

/-- The fields of the upstream WAQI payload (waqiResponse.data) that exist on
the wire.  The source reads only aqi and iaqi.(t, h, co, pm25, no2, so2, o3).v;
the fields dominentpol and cityName stand for the remaining upstream fields
(dominentpol, city.name, time, ...) that the WAQI feed carries but the source
never reads. -/
structure WaqiPayload where
  aqi : ℚ
  t : Option ℚ
  h : Option ℚ
  co : Option ℚ
  pm25 : Option ℚ
  no2 : Option ℚ
  so2 : Option ℚ
  o3 : Option ℚ
  dominentpol : Option String
  cityName : Option String
  deriving DecidableEq

/-- The parsed JSON body of the WAQI response: a status string and the data
field.  errText is the string reading of the data field, used by the source in
the error message data.data or Failed-to-fetch when status is not ok (the WAQI
feed puts an error string there in that case); an empty string is falsy. -/
structure WaqiBody where
  status : String
  errText : String
  data : WaqiPayload
  deriving DecidableEq

/-- Outcome of the fetch call: the promise rejected with a message, or it
resolved with the ok-flag of the response and the parsed JSON body. -/
inductive HttpOutcome where
  | rejected (msg : String)
  | resolved (ok : Bool) (body : WaqiBody)
  deriving DecidableEq

/-- A thrown JavaScript value: either the rejection value of the failed fetch,
or a new Error with the given message. -/
inductive JsError where
  | fetchFailed (msg : String)
  | error (msg : String)
  deriving DecidableEq

/-- The clock: iso is toISOString() of now, hours is getHours() of now. -/
structure JsDate where
  iso : String
  hours : ℕ
  deriving DecidableEq

/-- JS truthiness fallback: models the expression x || d where x is a possibly
absent numeric reading.  Both undefined (none) and 0 are falsy, so the default
d is used exactly when the reading is absent or zero. -/
def truthyOr (x : Option ℚ) (d : ℚ) : ℚ :=
  match x with
  | some v => if v = 0 then d else v
  | none => d

/-- Math.round: rounds half toward positive infinity,
Math.round x = floor (x + 1/2). -/
def jsRound (q : ℚ) : ℤ :=
  ⌊q + 1/2⌋

/-- A draw supply is valid when every draw lies in the range of
Math.random(): 0 ≤ r < 1. -/
def ValidRng (rng : ℕ → ℚ) : Prop :=
  ∀ n, 0 ≤ rng n ∧ rng n < 1

/-- getAqiCategory of the source: fixed threshold comparisons. -/
def getAqiCategory (aqi : ℚ) : String :=
  if aqi ≤ 50 then "Good"
  else if aqi ≤ 100 then "Moderate"
  else if aqi ≤ 150 then "Unhealthy for Sensitive Groups"
  else if aqi ≤ 200 then "Unhealthy"
  else if aqi ≤ 300 then "Very Unhealthy"
  else "Hazardous"

/-- generateVariation of the source:
Math.max(0, baseValue + (Math.random() * 40 - 20)), with the draw r made
explicit. -/
def generateVariation (baseValue : ℚ) (r : ℚ) : ℚ :=
  max 0 (baseValue + (r * 40 - 20))

/-- toString padded to two digits with leading zeros: padStart(2, '0'). -/
def pad2 (n : ℕ) : String :=
  (if n < 10 then "0" else "") ++ toString n

/-- The hour label of the i-th hourly sample: setHours(getHours() - i) rolls
the date, and getHours() of the result is (hours - i) modulo 24. -/
def hourLabel (d : JsDate) (i : ℕ) : String :=
  pad2 (((d.hours : ℤ) - (i : ℤ)) % 24).toNat ++ ":00"

/-- Short month names produced by toLocaleString with the short month option
in the default English locale, for new Date(2024, i, 1). -/
def monthNames : List String :=
  ["Jan", "Feb", "Mar", "Apr", "May", "Jun",
   "Jul", "Aug", "Sep", "Oct", "Nov", "Dec"]

/-- The body of the try block of fetchEnvironmentalData after the fetch
succeeded: the construction of processedData from waqiData, the clock now and
the Math.random() draws.  Call-site indices into the draw supply: the
prediction uses draws 0 and 1; hourly sample i uses draws 2 + 4 * i (the
temperature fallback), 3 + 4 * i (humidity fallback), 4 + 4 * i (co2 fallback)
and 5 + 4 * i (the aqi variation); daily entry i uses draw 100 + i, weekly
entry i draw 200 + i, monthly entry i draw 300 + i, yearly entry i draw
400 + i.  Because of the precedence of || against +, the three fallback draws
of an hourly sample are consumed only when the corresponding upstream reading
is falsy. -/
def processedData (w : WaqiPayload) (now : JsDate) (rng : ℕ → ℚ) :
    EnvironmentalData :=
  let currentAqi := w.aqi
  { current := {
      timestamp := now.iso
      temperature := truthyOr w.t 25
      humidity := truthyOr w.h 60
      co2 := truthyOr w.co 400
      aqi := {
        value := currentAqi
        category := getAqiCategory currentAqi
        pollutants := { pm25 := w.pm25, no2 := w.no2, so2 := w.so2, o3 := w.o3 }
        prediction := some {
          predictedAQI := currentAqi + (rng 0 * 20 - 10)
          confidence := 17/20
          trend := if rng 1 > 1/2 then Trend.improving else Trend.worsening } } }
    hourly := (List.range 24).map (fun i =>
      { hour := hourLabel now i
        temperature := truthyOr w.t (25 + (rng (2 + 4 * i) * 5 - 5/2))
        humidity := truthyOr w.h (60 + (rng (3 + 4 * i) * 10 - 5))
        co2 := truthyOr w.co (400 + (rng (4 + 4 * i) * 100 - 50))
        aqi := {
          value := generateVariation currentAqi (rng (5 + 4 * i))
          pollutants := some
            { pm25 := none, no2 := w.no2, so2 := w.so2, o3 := w.o3 } } })
    timeRangeAverages := {
      daily := (List.range 24).map (fun i =>
        { hour := pad2 i ++ ":00"
          averageAqi := generateVariation currentAqi (rng (100 + i)) })
      weekly := (List.range 4).map (fun i =>
        { week := "Week " ++ toString (i + 1)
          averageAqi := generateVariation currentAqi (rng (200 + i)) })
      monthly := (List.range 12).map (fun i =>
        { month := monthNames.getD i ""
          averageAqi := generateVariation currentAqi (rng (300 + i)) })
      yearly := (List.range 5).map (fun i =>
        { year := toString (2020 + i)
          averageAqi := generateVariation currentAqi (rng (400 + i)) }) }
    locationAverages := [
      { location := "downtown", averageAqi := (jsRound (currentAqi * (6/5)) : ℚ) },
      { location := "suburbs", averageAqi := (jsRound (currentAqi * (4/5)) : ℚ) },
      { location := "industrial", averageAqi := (jsRound (currentAqi * (7/5)) : ℚ) },
      { location := "residential", averageAqi := (jsRound (currentAqi * (9/10)) : ℚ) },
      { location := "parks", averageAqi := (jsRound (currentAqi * (7/10)) : ℚ) } ] }

/-- fetchWaqiData of the source: throws on a rejected fetch (the catch block
logs and rethrows the caught value unchanged), throws new Error on a non-ok
response, throws new Error(data.data || fallback) when the body status is not
ok, and otherwise returns the parsed body. -/
def fetchWaqiData (outcome : HttpOutcome) : Except JsError WaqiBody :=
  match outcome with
  | HttpOutcome.rejected msg => Except.error (JsError.fetchFailed msg)
  | HttpOutcome.resolved ok body =>
    if !ok then
      Except.error (JsError.error "Failed to fetch WAQI data")
    else if body.status ≠ "ok" then
      Except.error (JsError.error
        (if body.errText = "" then "Failed to fetch WAQI data" else body.errText))
    else
      Except.ok body

/-- fetchEnvironmentalData of the source: awaits fetchWaqiData, shapes the
payload into the view model, and its catch block logs and rethrows the caught
error unchanged. -/
def fetchEnvironmentalData (outcome : HttpOutcome) (now : JsDate)
    (rng : ℕ → ℚ) : Except JsError EnvironmentalData :=
  match fetchWaqiData outcome with
  | Except.error e => Except.error e
  | Except.ok body => Except.ok (processedData body.data now rng)

/-- Every synthesized AQI value of a view model: the 24 hourly values and the
averageAqi of each daily, weekly, monthly and yearly entry. -/
def syntheticAqiValues (e : EnvironmentalData) : List ℚ :=
  e.hourly.map (fun s => s.aqi.value)
    ++ e.timeRangeAverages.daily.map (fun a => a.averageAqi)
    ++ e.timeRangeAverages.weekly.map (fun a => a.averageAqi)
    ++ e.timeRangeAverages.monthly.map (fun a => a.averageAqi)
    ++ e.timeRangeAverages.yearly.map (fun a => a.averageAqi)

/-- A concrete upstream payload: current AQI 100, pollutant readings present,
no temperature, humidity or CO readings. -/
def pEx : WaqiPayload :=
  { aqi := 100, t := none, h := none, co := none, pm25 := some 55,
    no2 := some 10, so2 := some 5, o3 := some 20,
    dominentpol := some "pm25", cityName := some "Mumbai" }

/-- A concrete clock reading. -/
def dEx : JsDate := { iso := "2024-05-01T12:00:00.000Z", hours := 12 }

/-- The draw supply whose every draw is 0 (a legal value of Math.random()). -/
def rngA : ℕ → ℚ := fun _ => 0

/-- The draw supply whose every draw is one half. -/
def rngB : ℕ → ℚ := fun _ => 1/2

/-- pEx with a negative upstream AQI. -/
def pNeg : WaqiPayload := { pEx with aqi := -30 }

/-- pEx with upstream AQI 200. -/
def p200 : WaqiPayload := { pEx with aqi := 200 }

/-- pEx with a temperature reading of 30. -/
def pT30 : WaqiPayload := { pEx with t := some 30 }

/-- pEx with a temperature reading of 10. -/
def pT10 : WaqiPayload := { pEx with t := some 10 }

/-- pEx with a different dominant pollutant field (a field the source never
reads). -/
def pDomA : WaqiPayload := { pEx with dominentpol := some "no2" }

/-- pEx with temperature, humidity and CO readings all present and truthy. -/
def pTHC : WaqiPayload := { pEx with t := some 30, h := some 70, co := some 1 }

/-- A concrete well-formed ok body around pEx. -/
def bodyEx : WaqiBody := { status := "ok", errText := "", data := pEx }

/-- C7: the application never computes the current AQI itself: the view model
field current.aqi.value is the aqi field of the upstream WAQI payload
verbatim, with no arithmetic applied. -/
theorem c7_aqi_verbatim (w : WaqiPayload) (d : JsDate) (r : ℕ → ℚ) :
    (processedData w d r).current.aqi.value = w.aqi := rfl

/-- C5: the view model has a fixed shape for every successful fetch: exactly
24 hourly samples, 24 daily, 4 weekly, 12 monthly and 5 yearly time-range
entries, and exactly the five location averages labelled downtown, suburbs,
industrial, residential, parks in that order. -/
theorem c5_fixed_shape (w : WaqiPayload) (d : JsDate) (r : ℕ → ℚ) :
    (processedData w d r).hourly.length = 24 ∧
    (processedData w d r).timeRangeAverages.daily.length = 24 ∧
    (processedData w d r).timeRangeAverages.weekly.length = 4 ∧
    (processedData w d r).timeRangeAverages.monthly.length = 12 ∧
    (processedData w d r).timeRangeAverages.yearly.length = 5 ∧
    (processedData w d r).locationAverages.map (fun l => l.location)
      = ["downtown", "suburbs", "industrial", "residential", "parks"] :=
  ⟨rfl, rfl, rfl, rfl, rfl, rfl⟩

/-- C1 (amended): the transformation is a pure function of the upstream
payload together with the clock reading and the stream of Math.random draws;
for a fixed payload and clock, two runs with possibly different draw streams
still agree on every non-random component: the current snapshot apart from its
prediction (timestamp, temperature, humidity, co2, AQI value, category,
pollutants) and the five location averages. -/
theorem c1_pure_mapping (w : WaqiPayload) (d : JsDate) (r1 r2 : ℕ → ℚ) :
    (processedData w d r1).current.timestamp = (processedData w d r2).current.timestamp ∧
    (processedData w d r1).current.temperature = (processedData w d r2).current.temperature ∧
    (processedData w d r1).current.humidity = (processedData w d r2).current.humidity ∧
    (processedData w d r1).current.co2 = (processedData w d r2).current.co2 ∧
    (processedData w d r1).current.aqi.value = (processedData w d r2).current.aqi.value ∧
    (processedData w d r1).current.aqi.category = (processedData w d r2).current.aqi.category ∧
    (processedData w d r1).current.aqi.pollutants = (processedData w d r2).current.aqi.pollutants ∧
    (processedData w d r1).locationAverages = (processedData w d r2).locationAverages :=
  ⟨rfl, rfl, rfl, rfl, rfl, rfl, rfl, rfl⟩

/-- C1 (counterexample): the claim that two runs of fetchEnvironmentalData
over the same upstream response produce identical view models is false: over
the well-formed ok response bodyEx, a run whose Math.random draws are all 0
and a run whose draws are all one half produce different view models (the
predictions and the synthetic series differ). -/
theorem c1_counterexample :
    fetchEnvironmentalData (HttpOutcome.resolved true bodyEx) dEx rngA ≠
    fetchEnvironmentalData (HttpOutcome.resolved true bodyEx) dEx rngB := by
  intro hEq
  have hok : (Except.ok (processedData pEx dEx rngA) : Except JsError EnvironmentalData)
      = Except.ok (processedData pEx dEx rngB) := hEq
  injection hok with hp
  have h1 := congrArg (fun v => v.current.aqi.prediction) hp
  simp only [processedData, pEx, rngA, rngB] at h1
  norm_num at h1

/-- C2 (amended): every hourly AQI value and every averageAqi of the daily,
weekly, monthly and yearly series is generateVariation applied to the real
upstream current AQI and a request-time random draw, and the five location
averages are deterministic rounded multiples 1.2, 0.8, 1.4, 0.9 and 0.7 of the
real upstream current AQI; all of these values are derived from the upstream
current AQI reading. -/
theorem c2_derived_from_upstream (w : WaqiPayload) (d : JsDate) (r : ℕ → ℚ) :
    (processedData w d r).hourly.map (fun s => s.aqi.value)
      = (List.range 24).map (fun i => generateVariation w.aqi (r (5 + 4 * i))) ∧
    (processedData w d r).timeRangeAverages.daily.map (fun a => a.averageAqi)
      = (List.range 24).map (fun i => generateVariation w.aqi (r (100 + i))) ∧
    (processedData w d r).timeRangeAverages.weekly.map (fun a => a.averageAqi)
      = (List.range 4).map (fun i => generateVariation w.aqi (r (200 + i))) ∧
    (processedData w d r).timeRangeAverages.monthly.map (fun a => a.averageAqi)
      = (List.range 12).map (fun i => generateVariation w.aqi (r (300 + i))) ∧
    (processedData w d r).timeRangeAverages.yearly.map (fun a => a.averageAqi)
      = (List.range 5).map (fun i => generateVariation w.aqi (r (400 + i))) ∧
    (processedData w d r).locationAverages = [
      { location := "downtown", averageAqi := (jsRound (w.aqi * (6/5)) : ℚ) },
      { location := "suburbs", averageAqi := (jsRound (w.aqi * (4/5)) : ℚ) },
      { location := "industrial", averageAqi := (jsRound (w.aqi * (7/5)) : ℚ) },
      { location := "residential", averageAqi := (jsRound (w.aqi * (9/10)) : ℚ) },
      { location := "parks", averageAqi := (jsRound (w.aqi * (7/10)) : ℚ) } ] :=
  ⟨rfl, rfl, rfl, rfl, rfl, rfl⟩

/-- C2 (counterexample): the claim that the five location averages are
randomly generated and not derived from any real upstream signal is false: the
location averages do not depend on the random draws at all (all-zero draws and
all-one-half draws give the same list), and they do depend on the upstream
current AQI (upstream AQI 100 and upstream AQI 200 give different lists). -/
theorem c2_counterexample :
    (processedData pEx dEx rngA).locationAverages
      = (processedData pEx dEx rngB).locationAverages ∧
    (processedData pEx dEx rngA).locationAverages
      ≠ (processedData p200 dEx rngA).locationAverages := by
  refine ⟨rfl, fun hEq => ?_⟩
  have h1 := congrArg (fun l => l.map (fun a => a.averageAqi)) hEq
  have e1 : jsRound ((100 : ℚ) * (6/5)) = 120 := by
    rw [jsRound, Int.floor_eq_iff]
    norm_num
  have e2 : jsRound ((200 : ℚ) * (6/5)) = 240 := by
    rw [jsRound, Int.floor_eq_iff]
    norm_num
  simp only [processedData, pEx, p200, List.map_cons, List.map_nil] at h1
  rw [e1, e2] at h1
  norm_num at h1

/-- C3: fetchEnvironmentalData fails exactly when the underlying fetch
rejected, the HTTP response was not ok, or the parsed body status was not ok;
any error produced by fetchWaqiData is propagated unchanged (no recovery,
retry or substitute data), a rejected fetch surfaces as that same rejection,
and a well-formed ok response yields the shaped view model with no error. -/
theorem c3_error_propagation (o : HttpOutcome) (d : JsDate) (r : ℕ → ℚ) :
    ((∃ vm, fetchEnvironmentalData o d r = Except.ok vm) ↔
      ∃ b, o = HttpOutcome.resolved true b ∧ b.status = "ok") ∧
    (∀ e, fetchWaqiData o = Except.error e →
      fetchEnvironmentalData o d r = Except.error e) ∧
    (∀ m, fetchEnvironmentalData (HttpOutcome.rejected m) d r
      = Except.error (JsError.fetchFailed m)) ∧
    (∀ b, o = HttpOutcome.resolved true b → b.status = "ok" →
      fetchEnvironmentalData o d r = Except.ok (processedData b.data d r)) := by
  refine ⟨⟨?_, ?_⟩, ?_, ?_, ?_⟩
  · intro hok
    obtain ⟨vm, hvm⟩ := hok
    cases o with
    | rejected m => simp [fetchEnvironmentalData, fetchWaqiData] at hvm
    | resolved ok b =>
      cases ok with
      | false => simp [fetchEnvironmentalData, fetchWaqiData] at hvm
      | true =>
        by_cases hs : b.status = "ok"
        · exact ⟨b, rfl, hs⟩
        · simp [fetchEnvironmentalData, fetchWaqiData, hs] at hvm
  · intro hb
    obtain ⟨b, rfl, hs⟩ := hb
    exact ⟨processedData b.data d r,
      by simp [fetchEnvironmentalData, fetchWaqiData, hs]⟩
  · intro e he
    unfold fetchEnvironmentalData
    rw [he]
  · intro m
    rfl
  · intro b hb hs
    subst hb
    simp [fetchEnvironmentalData, fetchWaqiData, hs]

/-- C3 (witness): at the concrete rejected outcome the rejection is rethrown
unchanged, and at the concrete well-formed ok response the view model is
returned with no error. -/
theorem c3_error_propagation_witness :
    fetchEnvironmentalData (HttpOutcome.rejected "network down") dEx rngA
      = Except.error (JsError.fetchFailed "network down") ∧
    fetchEnvironmentalData (HttpOutcome.resolved true bodyEx) dEx rngA
      = Except.ok (processedData pEx dEx rngA) := by
  constructor
  · exact (c3_error_propagation (HttpOutcome.rejected "network down") dEx rngA).2.2.1
      "network down"
  · exact (c3_error_propagation (HttpOutcome.resolved true bodyEx) dEx rngA).2.2.2
      bodyEx rfl rfl

/-- C4: getAqiCategory is a total function of the AQI determined solely by
fixed threshold comparisons, returning Good iff aqi is at most 50, Moderate
iff 50 < aqi and aqi is at most 100, Unhealthy for Sensitive Groups iff
100 < aqi and aqi is at most 150, Unhealthy iff 150 < aqi and aqi is at most
200, Very Unhealthy iff 200 < aqi and aqi is at most 300, Hazardous iff
300 < aqi; and the shaped view model always sets current.aqi.category to
getAqiCategory of the current AQI value. -/
theorem c4_category_thresholds (aqi : ℚ) (w : WaqiPayload) (d : JsDate) (r : ℕ → ℚ) :
    (getAqiCategory aqi = "Good" ↔ aqi ≤ 50) ∧
    (getAqiCategory aqi = "Moderate" ↔ 50 < aqi ∧ aqi ≤ 100) ∧
    (getAqiCategory aqi = "Unhealthy for Sensitive Groups" ↔ 100 < aqi ∧ aqi ≤ 150) ∧
    (getAqiCategory aqi = "Unhealthy" ↔ 150 < aqi ∧ aqi ≤ 200) ∧
    (getAqiCategory aqi = "Very Unhealthy" ↔ 200 < aqi ∧ aqi ≤ 300) ∧
    (getAqiCategory aqi = "Hazardous" ↔ 300 < aqi) ∧
    (processedData w d r).current.aqi.category = getAqiCategory w.aqi := by
  refine ⟨?_, ?_, ?_, ?_, ?_, ?_, rfl⟩ <;>
    · unfold getAqiCategory
      split_ifs with h1 h2 h3 h4 h5 <;> simp_all <;> intros <;> linarith

/-- C4 (witness): at the concrete AQI 42 the category is Good, and the
concrete view model for upstream AQI 100 carries getAqiCategory 100. -/
theorem c4_category_thresholds_witness :
    getAqiCategory 42 = "Good" ∧
    (processedData pEx dEx rngA).current.aqi.category = getAqiCategory 100 := by
  constructor
  · exact ((c4_category_thresholds 42 pEx dEx rngA).1).mpr (by norm_num)
  · exact (c4_category_thresholds 100 pEx dEx rngA).2.2.2.2.2.2

/-- C6 (counterexample): the claim that no field of the view model other than
the current AQI and the pollutants pm25, no2, so2, o3 takes its value from the
upstream response is false: two payloads that agree on the AQI and on all four
pollutant readings but differ in the upstream temperature reading iaqi.t.v
produce different view models (current.temperature is 30 in one and 10 in the
other). -/
theorem c6_counterexample :
    (pT30.aqi = pT10.aqi ∧ pT30.pm25 = pT10.pm25 ∧ pT30.no2 = pT10.no2 ∧
      pT30.so2 = pT10.so2 ∧ pT30.o3 = pT10.o3) ∧
    processedData pT30 dEx rngA ≠ processedData pT10 dEx rngA := by
  refine ⟨⟨rfl, rfl, rfl, rfl, rfl⟩, fun hEq => ?_⟩
  have h1 := congrArg (fun v => v.current.temperature) hEq
  simp only [processedData, pT30, pT10, pEx, truthyOr] at h1
  norm_num at h1

/-- C6 (amended): the real external values incorporated into the view model
are the current AQI, the pollutant instant-readings pm25, no2, so2 and o3, and
additionally the instant readings for temperature (iaqi.t.v), humidity
(iaqi.h.v) and carbon monoxide (iaqi.co.v); no other upstream field is used:
two payloads agreeing on those eight readings yield identical view models. -/
theorem c6_upstream_fields (w1 w2 : WaqiPayload) (d : JsDate) (r : ℕ → ℚ)
    (ha : w1.aqi = w2.aqi) (ht : w1.t = w2.t) (hh : w1.h = w2.h)
    (hc : w1.co = w2.co) (hp : w1.pm25 = w2.pm25) (hn : w1.no2 = w2.no2)
    (hs : w1.so2 = w2.so2) (ho : w1.o3 = w2.o3) :
    processedData w1 d r = processedData w2 d r := by
  cases w1
  cases w2
  dsimp only at ha ht hh hc hp hn hs ho
  subst ha; subst ht; subst hh; subst hc; subst hp; subst hn; subst hs; subst ho
  rfl

/-- C6 (witness): two concrete payloads differing only in the unused upstream
dominant-pollutant field yield the same view model. -/
theorem c6_upstream_fields_witness :
    processedData pEx dEx rngA = processedData pDomA dEx rngA :=
  c6_upstream_fields pEx pDomA dEx rngA rfl rfl rfl rfl rfl rfl rfl rfl

/-- Bounds of a single generateVariation value when the draw is a legal
Math.random() value. -/
theorem generateVariation_bounds (b r : ℚ) (h0 : 0 ≤ r) (h1 : r < 1) :
    0 ≤ generateVariation b r ∧
    (-20 ≤ b → generateVariation b r ≤ b + 20) ∧
    (20 ≤ b → b - 20 ≤ generateVariation b r) := by
  unfold generateVariation
  refine ⟨le_max_left 0 _, fun hb => ?_, fun hb => ?_⟩
  · apply max_le <;> linarith
  · calc b - 20 ≤ b + (r * 40 - 20) := by linarith
      _ ≤ max 0 (b + (r * 40 - 20)) := le_max_right 0 _

/-- C8 (amended): for every successful fetch with upstream AQI b and legal
random draws, every synthetic AQI value (each hourly value and each averageAqi
of the daily, weekly, monthly and yearly series) is nonnegative, is at most
b + 20 whenever b is at least -20 (in particular for every nonnegative b), and
is at least b - 20 whenever b is at least 20. -/
theorem c8_variation_bounds (w : WaqiPayload) (d : JsDate) (r : ℕ → ℚ)
    (hr : ValidRng r) :
    ∀ v ∈ syntheticAqiValues (processedData w d r),
      0 ≤ v ∧ (-20 ≤ w.aqi → v ≤ w.aqi + 20) ∧ (20 ≤ w.aqi → w.aqi - 20 ≤ v) := by
  intro v hv
  simp only [syntheticAqiValues, processedData, List.map_map, List.mem_append,
    List.mem_map, List.mem_range, Function.comp] at hv
  rcases hv with ((((⟨i, hi, rfl⟩ | ⟨i, hi, rfl⟩) | ⟨i, hi, rfl⟩) | ⟨i, hi, rfl⟩) | ⟨i, hi, rfl⟩) <;>
    exact generateVariation_bounds w.aqi _ (hr _).1 (hr _).2

/-- C8 (witness): at upstream AQI 100 with all-zero draws the first hourly
value is 80, which the theorem bounds below by 0 and above by 100 + 20. -/
theorem c8_variation_bounds_witness :
    (0:ℚ) ≤ 80 ∧ (80:ℚ) ≤ 100 + 20 := by
  have hm : (80:ℚ) ∈ syntheticAqiValues (processedData pEx dEx rngA) := by
    simp only [syntheticAqiValues, processedData, List.map_map, List.mem_append,
      List.mem_map, List.mem_range, Function.comp]
    refine Or.inl (Or.inl (Or.inl (Or.inl ⟨0, by norm_num, ?_⟩)))
    show generateVariation pEx.aqi (rngA 5) = 80
    rw [show pEx.aqi = 100 from rfl, show rngA 5 = 0 from rfl]
    rw [generateVariation, max_eq_right] <;> norm_num
  have h := c8_variation_bounds pEx dEx rngA
    (by intro n; exact ⟨le_refl 0, by norm_num [rngA]⟩) 80 hm
  refine ⟨h.1, ?_⟩
  have h2 := h.2.1 (by rw [show pEx.aqi = (100:ℚ) from rfl]; norm_num)
  rw [show pEx.aqi = (100:ℚ) from rfl] at h2
  exact h2

/-- C8 (counterexample): the unconditional upper bound of the claim fails for
a negative upstream AQI: with upstream AQI -30 and the legal all-zero draws,
the synthetic value 0 occurs in the view model, yet 0 is not at most
-30 + 20. -/
theorem c8_counterexample :
    ValidRng rngA ∧
    (0:ℚ) ∈ syntheticAqiValues (processedData pNeg dEx rngA) ∧
    ¬ (0:ℚ) ≤ pNeg.aqi + 20 := by
  refine ⟨?_, ?_, ?_⟩
  · intro n
    exact ⟨le_refl 0, by norm_num [rngA]⟩
  · simp only [syntheticAqiValues, processedData, List.map_map, List.mem_append,
      List.mem_map, List.mem_range, Function.comp]
    refine Or.inl (Or.inl (Or.inl (Or.inl ⟨0, by norm_num, ?_⟩)))
    show generateVariation pNeg.aqi (rngA 5) = 0
    rw [show pNeg.aqi = (-30 : ℚ) from rfl, show rngA 5 = 0 from rfl]
    rw [generateVariation, max_eq_left] <;> norm_num
  · rw [show pNeg.aqi = (-30 : ℚ) from rfl]
    norm_num

/-- C9 (amended): for every successful fetch with legal draws the prediction
is present even though the type marks it optional, its confidence is exactly
0.85, its predictedAQI differs from the current AQI by at least -10 and
strictly less than 10 (the distance 10 is attained below when the draw is 0),
and its trend is always improving or worsening, never stable. -/
theorem c9_prediction_invariants (w : WaqiPayload) (d : JsDate) (r : ℕ → ℚ)
    (hr : ValidRng r) :
    ∃ pr, (processedData w d r).current.aqi.prediction = some pr ∧
      pr.confidence = 17/20 ∧
      -10 ≤ pr.predictedAQI - w.aqi ∧ pr.predictedAQI - w.aqi < 10 ∧
      (pr.trend = Trend.improving ∨ pr.trend = Trend.worsening) ∧
      pr.trend ≠ Trend.stable := by
  refine ⟨_, rfl, rfl, ?_, ?_, ?_, ?_⟩
  · show -10 ≤ w.aqi + (r 0 * 20 - 10) - w.aqi
    have h0 := (hr 0).1
    linarith
  · show w.aqi + (r 0 * 20 - 10) - w.aqi < 10
    have h1 := (hr 0).2
    linarith
  · show (if r 1 > 1/2 then Trend.improving else Trend.worsening) = Trend.improving ∨
      (if r 1 > 1/2 then Trend.improving else Trend.worsening) = Trend.worsening
    rcases lt_or_le (1/2 : ℚ) (r 1) with h | h
    · left
      rw [if_pos (show r 1 > 1/2 from h)]
    · right
      rw [if_neg (not_lt.mpr h)]
  · show (if r 1 > 1/2 then Trend.improving else Trend.worsening) ≠ Trend.stable
    rcases lt_or_le (1/2 : ℚ) (r 1) with h | h
    · rw [if_pos (show r 1 > 1/2 from h)]
      decide
    · rw [if_neg (not_lt.mpr h)]
      decide

/-- C9 (witness): at the concrete payload with all-zero draws the prediction
field of the view model is present. -/
theorem c9_prediction_invariants_witness :
    ((processedData pEx dEx rngA).current.aqi.prediction).isSome = true := by
  obtain ⟨pr, h1, _⟩ := c9_prediction_invariants pEx dEx rngA
    (by intro n; exact ⟨le_refl 0, by norm_num [rngA]⟩)
  rw [h1]
  rfl

/-- C9 (counterexample): the strict-within-10 part of the claim is false: with
the legal all-zero draws the prediction for upstream AQI 100 is exactly 90,
whose distance from the current AQI is exactly 10, not strictly less. -/
theorem c9_counterexample :
    ValidRng rngA ∧
    (processedData pEx dEx rngA).current.aqi.prediction
      = some { predictedAQI := 90, confidence := 17/20, trend := Trend.worsening } ∧
    ¬ |(90:ℚ) - (processedData pEx dEx rngA).current.aqi.value| < 10 := by
  refine ⟨fun n => ⟨le_refl 0, by norm_num [rngA]⟩, ?_, ?_⟩
  · simp only [processedData, pEx, rngA]
    norm_num
  · rw [show (processedData pEx dEx rngA).current.aqi.value = 100 from rfl]
    rw [show (90:ℚ) - 100 = -10 by norm_num]
    rw [abs_lt]
    intro h
    have := h.1
    norm_num at this

/-- C10: because the or-operator binds looser than addition, whenever the
upstream reading iaqi.t.v (respectively iaqi.h.v, iaqi.co.v) is present and
nonzero, the current snapshot and every one of the 24 hourly samples carry
exactly that reading as temperature (respectively humidity, co2), with no
random variation; the random offsets take effect only when the corresponding
reading is absent or zero, in which case every hourly sample gets base value
plus offset (25, 60 and 400 respectively). -/
theorem c10_truthy_short_circuit (w : WaqiPayload) (d : JsDate) (r : ℕ → ℚ) :
    (∀ v, w.t = some v → v ≠ 0 →
      (processedData w d r).current.temperature = v ∧
      ∀ s ∈ (processedData w d r).hourly, s.temperature = v) ∧
    (∀ v, w.h = some v → v ≠ 0 →
      (processedData w d r).current.humidity = v ∧
      ∀ s ∈ (processedData w d r).hourly, s.humidity = v) ∧
    (∀ v, w.co = some v → v ≠ 0 →
      (processedData w d r).current.co2 = v ∧
      ∀ s ∈ (processedData w d r).hourly, s.co2 = v) ∧
    ((w.t = none ∨ w.t = some 0) →
      (processedData w d r).hourly.map (fun s => s.temperature)
        = (List.range 24).map (fun i => 25 + (r (2 + 4 * i) * 5 - 5/2))) ∧
    ((w.h = none ∨ w.h = some 0) →
      (processedData w d r).hourly.map (fun s => s.humidity)
        = (List.range 24).map (fun i => 60 + (r (3 + 4 * i) * 10 - 5))) ∧
    ((w.co = none ∨ w.co = some 0) →
      (processedData w d r).hourly.map (fun s => s.co2)
        = (List.range 24).map (fun i => 400 + (r (4 + 4 * i) * 100 - 50))) := by
  refine ⟨fun v hv hnz => ⟨?_, ?_⟩, fun v hv hnz => ⟨?_, ?_⟩, fun v hv hnz => ⟨?_, ?_⟩,
    fun hf => ?_, fun hf => ?_, fun hf => ?_⟩
  · show truthyOr w.t 25 = v
    rw [hv, truthyOr, if_neg hnz]
  · intro s hs
    simp only [processedData, List.mem_map, List.mem_range] at hs
    obtain ⟨i, hi, rfl⟩ := hs
    show truthyOr w.t (25 + (r (2 + 4 * i) * 5 - 5/2)) = v
    rw [hv, truthyOr, if_neg hnz]
  · show truthyOr w.h 60 = v
    rw [hv, truthyOr, if_neg hnz]
  · intro s hs
    simp only [processedData, List.mem_map, List.mem_range] at hs
    obtain ⟨i, hi, rfl⟩ := hs
    show truthyOr w.h (60 + (r (3 + 4 * i) * 10 - 5)) = v
    rw [hv, truthyOr, if_neg hnz]
  · show truthyOr w.co 400 = v
    rw [hv, truthyOr, if_neg hnz]
  · intro s hs
    simp only [processedData, List.mem_map, List.mem_range] at hs
    obtain ⟨i, hi, rfl⟩ := hs
    show truthyOr w.co (400 + (r (4 + 4 * i) * 100 - 50)) = v
    rw [hv, truthyOr, if_neg hnz]
  · simp only [processedData, List.map_map]
    rcases hf with h | h <;> rw [h] <;> simp [truthyOr, Function.comp]
  · simp only [processedData, List.map_map]
    rcases hf with h | h <;> rw [h] <;> simp [truthyOr, Function.comp]
  · simp only [processedData, List.map_map]
    rcases hf with h | h <;> rw [h] <;> simp [truthyOr, Function.comp]

/-- C10 (witness): at the concrete payload whose temperature, humidity and CO
readings are 30, 70 and 1, the current snapshot carries exactly those
readings. -/
theorem c10_truthy_short_circuit_witness :
    (processedData pTHC dEx rngA).current.temperature = 30 ∧
    (processedData pTHC dEx rngA).current.humidity = 70 ∧
    (processedData pTHC dEx rngA).current.co2 = 1 := by
  refine ⟨((c10_truthy_short_circuit pTHC dEx rngA).1 30 rfl (by norm_num)).1,
    ((c10_truthy_short_circuit pTHC dEx rngA).2.1 70 rfl (by norm_num)).1,
    ((c10_truthy_short_circuit pTHC dEx rngA).2.2.1 1 rfl (by norm_num)).1⟩
